import Mathlib

/-!
Verification of the criteria compiler of `dml_manager`
(`src/dml_manager/_dml_manager.py`).

The compiler takes a `CriteriaStructure` — a Python list whose elements are
logic-marker strings (`'&'`, `'|'`) and field/operator/value triplets (tuples
or 3-element lists) — and reduces it to a single SQLAlchemy boolean
expression.  We embed the relevant Python functions shallowly:

* Python values appearing inside triplets become `Value`;
* elements of a criteria structure become `CItem`;
* the SQLAlchemy expression tree returned by the compiler becomes `Pred`,
  with an evaluation semantics `evalPred` over rows (PostgreSQL backend:
  `LIKE`, produced by SQLAlchemy `contains`, is case-sensitive;
  `regexp_match(v, 'i')` is a case-insensitive regular-expression match,
  modelled through an abstract matcher applied to case-folded strings);
* Python exceptions (`ValueError` from tuple unpacking, `IndexError` from
  out-of-range indexing, `KeyError` from dict lookup, `AttributeError` from
  `getattr`, `TypeError`) become an error type, and each fallible function
  returns `Except PyError _`.

A table is modelled as its list of column names; `getattr(table, field)`
succeeds exactly when `field` is a column of the table.
-/

namespace DMLManager

/-- A Python value occurring inside a triplet: integers, strings, lists. -/
inductive Value where
  | int : Int → Value
  | str : String → Value
  | list : List Value → Value

mutual

/-- Structural equality of `Value`s (Python `==` on these shapes). -/
def valueBEq : Value → Value → Bool
  | .int a, .int b => a == b
  | .str a, .str b => a == b
  | .list a, .list b => valueListBEq a b
  | _, _ => false

/-- Elementwise structural equality of lists of `Value`s. -/
def valueListBEq : List Value → List Value → Bool
  | [], [] => true
  | a :: as, b :: bs => valueBEq a b && valueListBEq as bs
  | _, _ => false

end

/-- One element of a `CriteriaStructure`: a Python string (the logic markers
`'&'` and `'|'` are strings), a Python tuple, or a Python list.  Tuples and
lists of arbitrary length are representable, as in Python, so that the
classifier `_is_triplet` can be stated faithfully. -/
inductive CItem where
  | str : String → CItem
  | tup : List Value → CItem
  | lst : List Value → CItem

/-- The SQLAlchemy boolean-expression tree produced by the compiler.  Atomic
nodes record the resolved column name, the comparison and the comparison
value; `between` records the two bounds; composition nodes mirror
`and_`, `or_` and `not_`. -/
inductive Pred where
  | eq (field : String) (v : Value)
  | ne (field : String) (v : Value)
  | gt (field : String) (v : Value)
  | ge (field : String) (v : Value)
  | lt (field : String) (v : Value)
  | le (field : String) (v : Value)
  | between (field : String) (lo hi : Value)
  | inList (field : String) (v : Value)
  | notInList (field : String) (v : Value)
  | contains (field : String) (v : Value)
  | regexpMatch (field : String) (v : Value) (flags : Option String)
  | not (p : Pred)
  | and (p q : Pred)
  | or (p q : Pred)

/-- The Python exceptions the compiler can raise, plus `noneReturned` for the
code path where `_build_where` falls off the end of its `for` loop (empty
criteria) and Python implicitly returns `None`. -/
inductive PyError where
  | valueError
  | indexError
  | keyError
  | typeError
  | attributeError
  | noneReturned
deriving DecidableEq

/-- Embedding of `DMLManager._get_table_field`: `getattr(table, field)`.  The table is its
list of column names; a non-string field name is a `TypeError`, a string that
is not a column is an `AttributeError` (the spec's `UnknownField`). -/
def _get_table_field (table : List String) (field : Value) : Except PyError String :=
  match field with
  | .str f => if table.contains f then .ok f else .error .attributeError
  | _ => .error .typeError

/-- The dict `_where._comparison_operation`, as a lookup from operator string
to predicate builder.  Each builder mirrors its Python lambda: `getattr` runs
first, then the comparison is built.  `'><'` indexes `value[0]` and
`value[1]`; `'in'`/`'not in'` require a sequence; `'ilike'` is SQLAlchemy
`contains` (a case-sensitive `LIKE` on PostgreSQL), `'not ilike'` its
`not_(...)`; `'~*'` passes the `'i'` flag to `regexp_match`. -/
def _comparison_operation (op : String) :
    Option (List String → Value → Value → Except PyError Pred) :=
  match op with
  | "=" => some fun table field v => (_get_table_field table field).map fun f => .eq f v
  | "!=" => some fun table field v => (_get_table_field table field).map fun f => .ne f v
  | ">" => some fun table field v => (_get_table_field table field).map fun f => .gt f v
  | ">=" => some fun table field v => (_get_table_field table field).map fun f => .ge f v
  | "<" => some fun table field v => (_get_table_field table field).map fun f => .lt f v
  | "<=" => some fun table field v => (_get_table_field table field).map fun f => .le f v
  | "><" => some fun table field v =>
      match _get_table_field table field with
      | .error e => .error e
      | .ok f =>
        match v with
        | .list (a :: b :: _) => .ok (.between f a b)
        | .list _ => .error .indexError
        | .str s =>
          match s.data with
          | a :: b :: _ => .ok (.between f (.str a.toString) (.str b.toString))
          | _ => .error .indexError
        | .int _ => .error .typeError
  | "in" => some fun table field v =>
      match _get_table_field table field with
      | .error e => .error e
      | .ok f =>
        match v with
        | .list _ => .ok (.inList f v)
        | _ => .error .typeError
  | "not in" => some fun table field v =>
      match _get_table_field table field with
      | .error e => .error e
      | .ok f =>
        match v with
        | .list _ => .ok (.notInList f v)
        | _ => .error .typeError
  | "ilike" => some fun table field v => (_get_table_field table field).map fun f => .contains f v
  | "not ilike" => some fun table field v =>
      (_get_table_field table field).map fun f => .not (.contains f v)
  | "~" => some fun table field v =>
      (_get_table_field table field).map fun f => .regexpMatch f v none
  | "~*" => some fun table field v =>
      (_get_table_field table field).map fun f => .regexpMatch f v (some "i")
  | _ => none

/-- The dict `_where._logic_operation`: `'|'` maps to SQLAlchemy `or_`,
`'&'` to `and_`; anything else is not a key. -/
def _logic_operation (op : CItem) : Option (Pred → Pred → Pred) :=
  match op with
  | .str "|" => some .or
  | .str "&" => some .and
  | _ => none

/-- Embedding of `_where._merge_queries`: `_logic_operation[op](c1, c2)`; a non-key raises
`KeyError`. -/
def _merge_queries (op : CItem) (condition_1 condition_2 : Pred) : Except PyError Pred :=
  match _logic_operation op with
  | some f => .ok (f condition_1 condition_2)
  | none => .error .keyError

/-- Python tuple unpacking `(field, op, value) = fragment`.  A string of
exactly three characters unpacks into its characters; a tuple or list unpacks
iff it has exactly three elements; otherwise `ValueError`. -/
def unpack3 : CItem → Except PyError (Value × Value × Value)
  | .str s =>
    match s.data with
    | [a, b, c] => .ok (.str a.toString, .str b.toString, .str c.toString)
    | _ => .error .valueError
  | .tup [a, b, c] => .ok (a, b, c)
  | .tup _ => .error .valueError
  | .lst [a, b, c] => .ok (a, b, c)
  | .lst _ => .error .valueError

/-- Embedding of `_where._create_individual_query`: unpack the fragment, look the operator
up in `_comparison_operation` (a missing key — including a non-string
operator — raises `KeyError`), then run the builder. -/
def _create_individual_query (table : List String) (fragment : CItem) : Except PyError Pred :=
  match unpack3 fragment with
  | .error e => .error e
  | .ok (field, op, value) =>
    match op with
    | .str o =>
      match _comparison_operation o with
      | some builder => builder table field value
      | none => .error .keyError
    | _ => .error .keyError

/-- Embedding of `_where._is_triplet`.  The Python body is
`isinstance(value, tuple) or isinstance(value, list) and len(value) == 3`,
in which `and` binds tighter than `or`: every tuple is classified as a
triplet regardless of length, while a list must have exactly three
elements. -/
def _is_triplet : CItem → Bool
  | .str _ => false
  | .tup _ => true
  | .lst xs => xs.length == 3

/-- Embedding of `_where._build_where`.  A singleton is delegated to
`_create_individual_query` (whatever the element is).  Otherwise the `for`
loop body always returns during its first iteration, so only index `0` is
ever inspected; computing `istriplet_3 = _is_triplet(search_criteria[2])` on
a two-element list raises `IndexError` first.  On an empty list the loop body
never runs and Python implicitly returns `None`.  The explicit `match`es on
intermediate results mirror Python's left-to-right evaluation with exception
propagation. -/
def _build_where (table : List String) (search_criteria : List CItem) : Except PyError Pred :=
  match search_criteria with
  | [] => .error .noneReturned
  | [triplet] => _create_individual_query table triplet
  | [_, _] => .error .indexError
  | a :: b :: c :: rest =>
    if !(_is_triplet a) && _is_triplet b && _is_triplet c then
      match _create_individual_query table b with
      | .error e => .error e
      | .ok condition_1 =>
        match _create_individual_query table c with
        | .error e => .error e
        | .ok condition_2 => _merge_queries a condition_1 condition_2
    else if _is_triplet b then
      match _create_individual_query table b with
      | .error e => .error e
      | .ok condition_1 =>
        match _build_where table (c :: rest) with
        | .error e => .error e
        | .ok condition_2 => _merge_queries a condition_1 condition_2
    else
      match _build_where table ((b :: c :: rest).dropLast) with
      | .error e => .error e
      | .ok condition_1 =>
        match _create_individual_query table ((c :: rest).getLast (List.cons_ne_nil c rest)) with
        | .error e => .error e
        | .ok condition_2 => _merge_queries a condition_1 condition_2
termination_by search_criteria.length
decreasing_by
  all_goals simp [List.length_dropLast]

/-- Fuel-indexed variant of `_build_where`: identical branch structure, but
each recursive call consumes one unit of fuel, and exhausted fuel yields
`none`.  Running it with enough fuel reproduces `_build_where` exactly
(`build_whereF_eq_build_where`), which makes the recursion-depth behaviour of
the source function statable. -/
def _build_whereF (table : List String) : Nat → List CItem → Option (Except PyError Pred)
  | 0, _ => none
  | _ + 1, [] => some (.error .noneReturned)
  | _ + 1, [triplet] => some (_create_individual_query table triplet)
  | _ + 1, [_, _] => some (.error .indexError)
  | fuel + 1, a :: b :: c :: rest =>
    if !(_is_triplet a) && _is_triplet b && _is_triplet c then
      some (match _create_individual_query table b with
        | .error e => .error e
        | .ok condition_1 =>
          match _create_individual_query table c with
          | .error e => .error e
          | .ok condition_2 => _merge_queries a condition_1 condition_2)
    else if _is_triplet b then
      match _create_individual_query table b with
      | .error e => some (.error e)
      | .ok condition_1 =>
        match _build_whereF table fuel (c :: rest) with
        | none => none
        | some (.error e) => some (.error e)
        | some (.ok condition_2) => some (_merge_queries a condition_1 condition_2)
    else
      match _build_whereF table fuel ((b :: c :: rest).dropLast) with
      | none => none
      | some (.error e) => some (.error e)
      | some (.ok condition_1) =>
        match _create_individual_query table ((c :: rest).getLast (List.cons_ne_nil c rest)) with
        | .error e => some (.error e)
        | .ok condition_2 => some (_merge_queries a condition_1 condition_2)

/-- The number of recursive `_build_where` calls actually performed below the
top-level call, mirroring Python's evaluation order: in the
`istriplet_2` branch the first argument `_create_individual_query(table,
search_criteria[i + 1])` is evaluated before the recursive call, so a raised
exception there prevents the recursion; in the last branch the recursive call
is evaluated first. -/
def buildDepth (table : List String) (search_criteria : List CItem) : Nat :=
  match search_criteria with
  | [] => 0
  | [_] => 0
  | [_, _] => 0
  | a :: b :: c :: rest =>
    if !(_is_triplet a) && _is_triplet b && _is_triplet c then 0
    else if _is_triplet b then
      match _create_individual_query table b with
      | .error _ => 0
      | .ok _ => 1 + buildDepth table (c :: rest)
    else 1 + buildDepth table ((b :: c :: rest).dropLast)
termination_by search_criteria.length
decreasing_by
  all_goals simp [List.length_dropLast]

/-- The number of `LogicMarker` elements (`'&'` or `'|'`) of a criteria
structure. -/
def countMarkers (search_criteria : List CItem) : Nat :=
  search_criteria.countP fun x => (_logic_operation x).isSome

/-- Embedding of `DMLManager.and_`: splice two criteria structures under a leading `'&'`;
if one is empty (Python falsy `len`), return the other. -/
def and_ (cs_1 cs_2 : List CItem) : List CItem :=
  if cs_1.length != 0 && cs_2.length != 0 then .str "&" :: (cs_1 ++ cs_2)
  else if cs_1.length != 0 then cs_1
  else cs_2

/-- Embedding of `DMLManager.or_`: splice two criteria structures under a leading `'|'`;
if one is empty, return the other. -/
def or_ (cs_1 cs_2 : List CItem) : List CItem :=
  if cs_1.length != 0 && cs_2.length != 0 then .str "|" :: (cs_1 ++ cs_2)
  else if cs_1.length != 0 then cs_1
  else cs_2

/-- The list `needle` is a prefix of the second list (character-wise `==`). -/
def listIsPrefixB : List Char → List Char → Bool
  | [], _ => true
  | _ :: _, [] => false
  | a :: as, b :: bs => a == b && listIsPrefixB as bs

/-- The list `needle` occurs as a contiguous sublist of the second list. -/
def listIsInfixB (needle : List Char) : List Char → Bool
  | [] => listIsPrefixB needle []
  | h :: t => listIsPrefixB needle (h :: t) || listIsInfixB needle t

/-- Case-sensitive substring containment: the semantics of the PostgreSQL
`LIKE` pattern that SQLAlchemy `column.contains(value)` compiles to (for
values without wildcard characters). -/
def strContainsSub (s sub : String) : Bool := listIsInfixB sub.data s.data

/-- Case folding of a string, character by character (ASCII letters map to
their lower-case forms). -/
def strLower (s : String) : String := ⟨s.data.map Char.toLower⟩

/-- Modelled from the spec: "case-insensitive substring containment", the
behaviour §4.2 prescribes for the `ilike` operator (the repository contains
no second implementation of it; the source maps `ilike` to SQLAlchemy
`contains`).  Case-insensitivity is containment after case-folding both
strings. -/
def ciContains (s sub : String) : Bool := strContainsSub (strLower s) (strLower sub)

/-- Numeric/string ordering used by SQL comparisons; comparisons across
incompatible types are `false`. -/
def valueLt : Value → Value → Bool
  | .int a, .int b => decide (a < b)
  | .str a, .str b => compare a b == Ordering.lt
  | _, _ => false

/-- Non-strict companion of `valueLt`. -/
def valueLe : Value → Value → Bool
  | .int a, .int b => decide (a ≤ b)
  | .str a, .str b => compare a b != Ordering.gt
  | _, _ => false

/-- Evaluation of a compiled predicate against a row (a valuation of column
names).  `rx` is the backend's case-sensitive regular-expression matcher
(PostgreSQL `~`), abstract here; the `'i'` flag makes the match
case-insensitive, modelled as matching on case-folded strings. -/
def evalPred (rx : String → String → Bool) (row : String → Value) : Pred → Bool
  | .eq f v => valueBEq (row f) v
  | .ne f v => !valueBEq (row f) v
  | .gt f v => valueLt v (row f)
  | .ge f v => valueLe v (row f)
  | .lt f v => valueLt (row f) v
  | .le f v => valueLe (row f) v
  | .between f lo hi => valueLe lo (row f) && valueLe (row f) hi
  | .inList f v =>
    match v with
    | .list xs => xs.any fun x => valueBEq (row f) x
    | _ => false
  | .notInList f v =>
    match v with
    | .list xs => !(xs.any fun x => valueBEq (row f) x)
    | _ => false
  | .contains f v =>
    match row f, v with
    | .str s, .str sub => strContainsSub s sub
    | _, _ => false
  | .regexpMatch f v flags =>
    match row f, v with
    | .str s, .str pat =>
      match flags with
      | none => rx s pat
      | some _ => rx (strLower s) (strLower pat)
    | _, _ => false
  | .not p => !evalPred rx row p
  | .and p q => evalPred rx row p && evalPred rx row q
  | .or p q => evalPred rx row p || evalPred rx row q

/-- Column names of the table used in the worked examples. -/
def exampleTable : List String :=
  ["partner_id", "salesperson_id", "a", "b", "c", "d", "name", "amount", "state"]

/-- A triplet criteria element comparing a field to an integer value. -/
def tripInt (f op : String) (n : Int) : CItem :=
  .tup [.str f, .str op, .int n]

/-- A triplet criteria element comparing a field to a string value. -/
def tripStr (f op v : String) : CItem :=
  .tup [.str f, .str op, .str v]

/-- A row whose `name` column holds the given string (other columns `0`). -/
def rowName (s : String) : String → Value :=
  fun f => if f = "name" then .str s else .int 0

/-- A criteria structure of four triplets and no logic marker. -/
def fourTriplets : List CItem :=
  [tripInt "a" "=" 1, tripInt "b" "=" 2, tripInt "c" "=" 3, tripInt "d" "=" 4]

/-- With fuel exceeding the length of the criteria structure, the fuel never
runs out: `_build_whereF` computes `_build_where`.  (Each recursive call is
on a list two elements shorter, so fuel equal to the length is already
ample.) -/
theorem build_whereF_eq_build_where (table : List String) :
    ∀ (fuel : Nat) (sc : List CItem), sc.length < fuel →
      _build_whereF table fuel sc = some (_build_where table sc) := by
  intro fuel
  induction fuel with
  | zero => intro sc h; omega
  | succ fuel ih =>
    intro sc h
    match sc with
    | [] => simp [_build_whereF, _build_where]
    | [t] => simp [_build_whereF, _build_where]
    | [x, y] => simp [_build_whereF, _build_where]
    | a :: b :: c :: rest =>
      rw [_build_whereF, _build_where]
      have hlen1 : (c :: rest).length < fuel := by
        simp at h ⊢; omega
      have hlen2 : ((b :: c :: rest).dropLast).length < fuel := by
        simp [List.length_dropLast] at h ⊢; omega
      by_cases h1 : (!(_is_triplet a) && _is_triplet b && _is_triplet c) = true
      · simp only [if_pos h1]
      · simp only [if_neg h1]
        by_cases h2 : _is_triplet b = true
        · simp only [if_pos h2]
          cases _create_individual_query table b with
          | error e => rfl
          | ok q1 =>
            rw [ih (c :: rest) hlen1]
            cases _build_where table (c :: rest) with
            | error e => rfl
            | ok q2 => rfl
        · simp only [if_neg h2]
          rw [ih ((b :: c :: rest).dropLast) hlen2]
          cases _build_where table ((b :: c :: rest).dropLast) with
          | error e => rfl
          | ok q1 =>
            cases _create_individual_query table ((c :: rest).getLast (List.cons_ne_nil c rest)) with
            | error e => rfl
            | ok q2 => rfl

/-- Concrete-evaluation helper: a computation of the fueled variant
determines the value of `_build_where`. -/
theorem build_where_eval (table : List String) (sc : List CItem) (r : Except PyError Pred)
    (h : _build_whereF table (sc.length + 1) sc = some r) : _build_where table sc = r := by
  have h2 := build_whereF_eq_build_where table (sc.length + 1) sc (by omega)
  rw [h] at h2
  exact (Option.some.injEq _ _ ▸ h2).symm

/-- A successful `_merge_queries` forces its operator to be a logic marker
(`'&'` or `'|'`): any other key raises `KeyError`. -/
theorem merge_ok_marker {a : CItem} {q1 q2 p : Pred}
    (h : _merge_queries a q1 q2 = .ok p) : (_logic_operation a).isSome = true := by
  unfold _merge_queries at h
  cases hla : _logic_operation a with
  | none => rw [hla] at h; exact absurd h (by simp)
  | some f => rfl

/-- Length-bounded induction form of the depth bound: whenever compilation
succeeds, the number of recursive `_build_where` calls is at most the number
of logic markers in the structure. -/
theorem buildDepth_le_countMarkers_aux (table : List String) :
    ∀ (n : Nat) (sc : List CItem), sc.length ≤ n → ∀ (p : Pred),
      _build_where table sc = .ok p → buildDepth table sc ≤ countMarkers sc := by
  intro n
  induction n with
  | zero =>
    intro sc hlen p hb
    match sc with
    | [] => rw [_build_where] at hb; exact absurd hb (by simp)
  | succ n ih =>
    intro sc hlen p hb
    match sc with
    | [] => rw [buildDepth]; exact Nat.zero_le _
    | [t] => rw [buildDepth]; exact Nat.zero_le _
    | [x, y] => rw [buildDepth]; exact Nat.zero_le _
    | a :: b :: c :: rest =>
      rw [_build_where] at hb
      rw [buildDepth]
      by_cases h1 : (!(_is_triplet a) && _is_triplet b && _is_triplet c) = true
      · rw [if_pos h1]; exact Nat.zero_le _
      · rw [if_neg h1] at hb ⊢
        by_cases h2 : _is_triplet b = true
        · rw [if_pos h2] at hb ⊢
          cases hq1 : _create_individual_query table b with
          | error e => rw [hq1] at hb; exact absurd hb (by simp)
          | ok q1 =>
            rw [hq1] at hb
            cases hq2 : _build_where table (c :: rest) with
            | error e => rw [hq2] at hb; exact absurd hb (by simp)
            | ok q2 =>
              rw [hq2] at hb
              have hma := merge_ok_marker hb
              have hIH : buildDepth table (c :: rest) ≤ countMarkers (c :: rest) := by
                refine ih (c :: rest) ?_ q2 hq2
                simp only [List.length_cons] at hlen ⊢
                omega
              have hmono : countMarkers (c :: rest) ≤ countMarkers (b :: c :: rest) :=
                (List.sublist_cons_self b (c :: rest)).countP_le _
              have hcons : countMarkers (a :: b :: c :: rest) =
                  countMarkers (b :: c :: rest) + 1 :=
                List.countP_cons_of_pos _ _ hma
              show 1 + buildDepth table (c :: rest) ≤ countMarkers (a :: b :: c :: rest)
              rw [hcons]
              omega
        · rw [if_neg h2] at hb ⊢
          cases hq1 : _build_where table ((b :: c :: rest).dropLast) with
          | error e => rw [hq1] at hb; exact absurd hb (by simp)
          | ok q1 =>
            rw [hq1] at hb
            cases hq2 : _create_individual_query table
                ((c :: rest).getLast (List.cons_ne_nil c rest)) with
            | error e => rw [hq2] at hb; exact absurd hb (by simp)
            | ok q2 =>
              rw [hq2] at hb
              have hma := merge_ok_marker hb
              have hIH : buildDepth table ((b :: c :: rest).dropLast) ≤
                  countMarkers ((b :: c :: rest).dropLast) := by
                refine ih ((b :: c :: rest).dropLast) ?_ q1 hq1
                simp only [List.length_dropLast, List.length_cons] at hlen ⊢
                omega
              have hmono : countMarkers ((b :: c :: rest).dropLast) ≤
                  countMarkers (b :: c :: rest) :=
                (List.dropLast_sublist (b :: c :: rest)).countP_le _
              have hcons : countMarkers (a :: b :: c :: rest) =
                  countMarkers (b :: c :: rest) + 1 :=
                List.countP_cons_of_pos _ _ hma
              rw [hcons]
              omega

/-- A field present among the table's columns resolves to itself. -/
theorem get_table_field_ok (table : List String) (f : String)
    (h : table.contains f = true) : _get_table_field table (.str f) = .ok f := by
  show (if table.contains f = true then Except.ok f
      else Except.error PyError.attributeError) = Except.ok f
  rw [if_pos h]

/-- A field absent from the table's columns raises `AttributeError`. -/
theorem get_table_field_absent (table : List String) (f : String)
    (h : table.contains f = false) :
    _get_table_field table (.str f) = .error .attributeError := by
  show (if table.contains f = true then Except.ok f
      else Except.error PyError.attributeError) = Except.error PyError.attributeError
  rw [h]
  simp

/-- C1: compiling `['&', '|', ('partner_id','=',14418), ('partner_id','=',14417),
('salesperson_id','=',213)]` applies the first logic marker `'&'` to the left
span `['|', t1, t2]` (resolved by the recursive call) and to the final
triplet, producing the tree `(partner_id = 14418 OR partner_id = 14417) AND
salesperson_id = 213`, whose evaluation on every row is exactly that boolean
combination. -/
theorem c1_nested_criteria_compiles_to_or_under_and :
    _build_where exampleTable
        [.str "&", .str "|", tripInt "partner_id" "=" 14418,
         tripInt "partner_id" "=" 14417, tripInt "salesperson_id" "=" 213] =
      .ok (.and (.or (.eq "partner_id" (.int 14418)) (.eq "partner_id" (.int 14417)))
            (.eq "salesperson_id" (.int 213))) ∧
    ∀ (rx : String → String → Bool) (row : String → Value),
      evalPred rx row
          (.and (.or (.eq "partner_id" (.int 14418)) (.eq "partner_id" (.int 14417)))
            (.eq "salesperson_id" (.int 213))) =
        ((valueBEq (row "partner_id") (.int 14418) ||
          valueBEq (row "partner_id") (.int 14417)) &&
         valueBEq (row "salesperson_id") (.int 213)) :=
  ⟨build_where_eval _ _ _ rfl, fun _ _ => rfl⟩

/-- C2, evaluated against the code: the source maps `'ilike'` to SQLAlchemy
`contains`, i.e. a case-sensitive `LIKE` on the PostgreSQL backend, so the
predicate built for `('name','ilike','as')` rejects a row whose `name` is
`"ASDF"`, while the case-insensitive substring containment the spec states
(`ciContains`) accepts that row.  The `'~*'` half of the claim holds: the
predicate built for it carries the `'i'` flag and evaluates as a
case-insensitive regular-expression match (the backend matcher applied to the
case-folded strings). -/
theorem c2_ilike_is_case_sensitive_but_tilde_star_is_not :
    _create_individual_query exampleTable (tripStr "name" "ilike" "as") =
        .ok (.contains "name" (.str "as")) ∧
    (∀ (rx : String → String → Bool),
        evalPred rx (rowName "ASDF") (.contains "name" (.str "as")) = false) ∧
    ciContains "ASDF" "as" = true ∧
    _create_individual_query exampleTable (tripStr "name" "~*" "pat") =
        .ok (.regexpMatch "name" (.str "pat") (some "i")) ∧
    (∀ (rx : String → String → Bool) (pat s : String),
        evalPred rx (rowName s) (.regexpMatch "name" (.str pat) (some "i")) =
          rx (strLower s) (strLower pat)) :=
  ⟨rfl, fun _ => rfl, rfl, rfl, fun _ _ _ => rfl⟩

/-- C3 counterexample: the structure `['&', ('a','=',1), ('b','=',2), ('c','=',3)]`
has a trailing unconsumed term, yet `_build_where` does not fail: it returns
the predicate built from only the first three elements. -/
theorem c3_counterexample_trailing_term_not_rejected :
    _build_where exampleTable
        [.str "&", tripInt "a" "=" 1, tripInt "b" "=" 2, tripInt "c" "=" 3] =
      .ok (.and (.eq "a" (.int 1)) (.eq "b" (.int 2))) :=
  build_where_eval _ _ _ rfl

/-- C3 amended: when a structure begins with a logic marker followed by two
triplets, `_build_where` consumes exactly those three elements and returns
immediately; any trailing elements are silently ignored — the result equals
compiling the three-element prefix — instead of `MalformedCriteria` being
raised. -/
theorem c3_amended_trailing_terms_silently_ignored :
    ∀ (table : List String) (m : String) (b c : CItem) (rest : List CItem),
      _is_triplet b = true → _is_triplet c = true →
      _build_where table (.str m :: b :: c :: rest) =
        _build_where table [.str m, b, c] := by
  intro table m b c rest hb hc
  have hm : _is_triplet (.str m) = false := rfl
  have hcond : (!(_is_triplet (.str m)) && _is_triplet b && _is_triplet c) = true := by
    rw [hm, hb, hc]
    rfl
  rw [_build_where, _build_where, if_pos hcond, if_pos hcond]

/-- Witness for the amended C3 at a concrete input: the trailing triplet
`('c','=',3)` is dropped. -/
theorem c3_amended_witness :
    _build_where exampleTable
        [.str "&", tripInt "a" "=" 1, tripInt "b" "=" 2, tripInt "c" "=" 3] =
      _build_where exampleTable [.str "&", tripInt "a" "=" 1, tripInt "b" "=" 2] :=
  c3_amended_trailing_terms_silently_ignored exampleTable "&"
    (tripInt "a" "=" 1) (tripInt "b" "=" 2) [tripInt "c" "=" 3] rfl rfl

/-- C4: a lone logic marker fails (tuple unpacking of the one-character
marker string raises `ValueError` inside `_create_individual_query`), and any
two-element structure — in particular a marker followed by a single triplet —
fails (`IndexError` from reading `search_criteria[i + 2]`); no predicate is
silently returned.  These are the structural failures the spec names
`MalformedCriteria`. -/
theorem c4_marker_with_too_few_operands_fails :
    ∀ (table : List String) (m : String) (x y : CItem),
      (m = "&" ∨ m = "|") →
      _build_where table [.str m] = .error .valueError ∧
      _build_where table [x, y] = .error .indexError := by
  intro table m x y hm
  constructor
  · rcases hm with h | h <;> subst h <;> rw [_build_where] <;> rfl
  · rw [_build_where]

/-- Witness for C4 at the concrete inputs `['&']` and `['&', ('a','=',1)]`. -/
theorem c4_witness :
    _build_where exampleTable [.str "&"] = .error .valueError ∧
    _build_where exampleTable [.str "&", tripInt "a" "=" 1] = .error .indexError :=
  c4_marker_with_too_few_operands_fails exampleTable "&"
    (.str "&") (tripInt "a" "=" 1) (Or.inl rfl)

/-- C5: for every resolvable field and every value, `'not ilike'` builds
exactly the negation node over the `'ilike'` predicate, and evaluating that
negation on any row gives the boolean complement of evaluating the `'ilike'`
predicate on the same row. -/
theorem c5_not_ilike_is_negation_of_ilike :
    ∀ (table : List String) (f : String) (v : Value),
      table.contains f = true →
      _create_individual_query table (.tup [.str f, .str "not ilike", v]) =
          .ok (.not (.contains f v)) ∧
      _create_individual_query table (.tup [.str f, .str "ilike", v]) =
          .ok (.contains f v) ∧
      ∀ (rx : String → String → Bool) (row : String → Value),
        evalPred rx row (.not (.contains f v)) = !evalPred rx row (.contains f v) := by
  intro table f v h
  have hgf := get_table_field_ok table f h
  refine ⟨?_, ?_, fun _ _ => rfl⟩
  · show (_get_table_field table (.str f)).map (fun g => Pred.not (.contains g v)) =
      .ok (.not (.contains f v))
    rw [hgf]
    rfl
  · show (_get_table_field table (.str f)).map (fun g => Pred.contains g v) =
      .ok (.contains f v)
    rw [hgf]
    rfl

/-- Witness for C5 at field `"name"` of a one-column table and value `"x"`. -/
theorem c5_witness :
    _create_individual_query ["name"] (.tup [.str "name", .str "not ilike", .str "x"]) =
        .ok (.not (.contains "name" (.str "x"))) ∧
    _create_individual_query ["name"] (.tup [.str "name", .str "ilike", .str "x"]) =
        .ok (.contains "name" (.str "x")) :=
  ⟨(c5_not_ilike_is_negation_of_ilike ["name"] "name" (.str "x") rfl).1,
   (c5_not_ilike_is_negation_of_ilike ["name"] "name" (.str "x") rfl).2.1⟩

/-- C7: for every single-element criteria structure — whatever the element —
`_build_where` returns exactly `_create_individual_query` applied to that
element. -/
theorem c7_singleton_delegates_to_atomic :
    ∀ (table : List String) (x : CItem),
      _build_where table [x] = _create_individual_query table x := by
  intro table x
  rw [_build_where]

/-- C10: `_is_triplet` classifies every tuple as a triplet regardless of its
length — the `len(value) == 3` test only constrains lists, because Python's
`and` binds tighter than `or` — so a malformed two-element tuple inside a
criteria structure is consumed as a triplet (here: the compiler proceeds into
`_create_individual_query`, which fails with the `ValueError` of unpacking a
pair) instead of being rejected at classification time. -/
theorem c10_is_triplet_accepts_every_tuple :
    (∀ (xs : List Value), _is_triplet (.tup xs) = true) ∧
    (∀ (xs : List Value), _is_triplet (.lst xs) = (xs.length == 3)) ∧
    _is_triplet (.tup [.str "a", .str "="]) = true ∧
    _build_where exampleTable
        [.str "&", .tup [.str "a", .str "="], tripInt "b" "=" 2] =
      .error .valueError :=
  ⟨fun _ => rfl, fun _ => rfl, rfl, build_where_eval _ _ _ rfl⟩

/-- C6: `and_` yields `['&', *csA, *csB]` when both structures are non-empty
(`or_` the same with `'|'`), returns the other side unchanged when one side
is empty, and the empty structure when both are.  Consequently
`and_ cs [] = cs` for every `cs`, so compiling `and_ cs []` is compiling
`cs`. -/
theorem c6_and_or_splice_and_identity :
    ∀ (csA csB : List CItem) (table : List String),
      (csA ≠ [] → csB ≠ [] →
        and_ csA csB = .str "&" :: (csA ++ csB) ∧
        or_ csA csB = .str "|" :: (csA ++ csB)) ∧
      (csB = [] → and_ csA csB = csA ∧ or_ csA csB = csA) ∧
      (csA = [] → and_ csA csB = csB ∧ or_ csA csB = csB) ∧
      and_ csA [] = csA ∧
      _build_where table (and_ csA []) = _build_where table csA := by
  intro csA csB table
  have hand : and_ csA [] = csA := by
    rcases csA with _ | ⟨a, as⟩ <;> rfl
  refine ⟨?_, ?_, ?_, hand, by rw [hand]⟩
  · intro hA hB
    rcases csA with _ | ⟨a, as⟩
    · exact absurd rfl hA
    · rcases csB with _ | ⟨b, bs⟩
      · exact absurd rfl hB
      · exact ⟨rfl, rfl⟩
  · intro hB
    subst hB
    have hor : or_ csA [] = csA := by
      rcases csA with _ | ⟨a, as⟩ <;> rfl
    exact ⟨hand, hor⟩
  · intro hA
    subst hA
    exact ⟨rfl, rfl⟩

/-- Witness for C6 at concrete one-triplet structures. -/
theorem c6_witness :
    and_ [tripInt "a" "=" 1] [tripInt "b" "=" 2] =
      .str "&" :: ([tripInt "a" "=" 1] ++ [tripInt "b" "=" 2]) ∧
    or_ [tripInt "a" "=" 1] [tripInt "b" "=" 2] =
      .str "|" :: ([tripInt "a" "=" 1] ++ [tripInt "b" "=" 2]) ∧
    and_ [tripInt "a" "=" 1] [] = [tripInt "a" "=" 1] ∧
    or_ [] [tripInt "b" "=" 2] = [tripInt "b" "=" 2] ∧
    _build_where exampleTable (and_ [tripInt "a" "=" 1] []) =
      _build_where exampleTable [tripInt "a" "=" 1] :=
  ⟨((c6_and_or_splice_and_identity [tripInt "a" "=" 1] [tripInt "b" "=" 2]
      exampleTable).1 (List.cons_ne_nil _ _) (List.cons_ne_nil _ _)).1,
   ((c6_and_or_splice_and_identity [tripInt "a" "=" 1] [tripInt "b" "=" 2]
      exampleTable).1 (List.cons_ne_nil _ _) (List.cons_ne_nil _ _)).2,
   (c6_and_or_splice_and_identity [tripInt "a" "=" 1] [tripInt "b" "=" 2]
      exampleTable).2.2.2.1,
   ((c6_and_or_splice_and_identity [] [tripInt "b" "=" 2] exampleTable).2.2.1 rfl).2,
   (c6_and_or_splice_and_identity [tripInt "a" "=" 1] [tripInt "b" "=" 2]
      exampleTable).2.2.2.2⟩

/-- C8 counterexample: on `[('a','=',1), ('b','=',2), ('c','=',3), ('d','=',4)]`
— four triplets, zero logic markers — the compiler still performs one
recursive call (`_create_individual_query` succeeds on `('b','=',2)`, then
`_build_where` recurses on the remaining two-element span, which fails), so
the recursion depth exceeds the number of LogicMarkers in the structure. -/
theorem c8_counterexample_depth_exceeds_markers :
    countMarkers fourTriplets < buildDepth exampleTable fourTriplets := by
  have hd : buildDepth exampleTable fourTriplets = 1 := by
    rw [show fourTriplets = tripInt "a" "=" 1 :: tripInt "b" "=" 2 ::
        tripInt "c" "=" 3 :: [tripInt "d" "=" 4] from rfl]
    rw [buildDepth]
    rw [if_neg (by decide), if_pos (by decide)]
    rw [show _create_individual_query exampleTable (tripInt "b" "=" 2) =
        .ok (.eq "b" (.int 2)) from rfl]
    show 1 + buildDepth exampleTable [tripInt "c" "=" 3, tripInt "d" "=" 4] = 1
    rw [buildDepth]
  have hm : countMarkers fourTriplets = 0 := rfl
  rw [hd, hm]
  decide

/-- C8 amended: `_build_where` terminates on every finite criteria structure
— each recursive call receives a strictly shorter list (the two span lengths
are strictly below the input length), so fuel beyond the input length never
runs out — and the depth bound holds whenever compilation succeeds: the
number of recursive calls is at most the number of LogicMarkers. -/
theorem c8_amended_termination_and_conditional_depth_bound :
    ∀ (table : List String) (sc : List CItem) (fuel : Nat) (p : Pred),
      (∀ (a b c : CItem) (rest : List CItem),
          (c :: rest).length < (a :: b :: c :: rest).length ∧
          ((b :: c :: rest).dropLast).length < (a :: b :: c :: rest).length) ∧
      (sc.length < fuel → _build_whereF table fuel sc = some (_build_where table sc)) ∧
      (_build_where table sc = .ok p → buildDepth table sc ≤ countMarkers sc) := by
  intro table sc fuel p
  refine ⟨?_, ?_, ?_⟩
  · intro a b c rest
    constructor <;> simp only [List.length_cons, List.length_dropLast] <;> omega
  · intro h
    exact build_whereF_eq_build_where table fuel sc h
  · intro h
    exact buildDepth_le_countMarkers_aux table sc.length sc (Nat.le_refl _) p h

/-- Witness for the amended C8 at the structure `['&', ('a','=',1), ('b','=',2)]`
with fuel `4`. -/
theorem c8_amended_witness :
    (([tripInt "c" "=" 3] : List CItem).length <
      (tripInt "a" "=" 1 :: tripInt "b" "=" 2 :: [tripInt "c" "=" 3]).length) ∧
    _build_whereF exampleTable 4 [.str "&", tripInt "a" "=" 1, tripInt "b" "=" 2] =
      some (_build_where exampleTable [.str "&", tripInt "a" "=" 1, tripInt "b" "=" 2]) ∧
    buildDepth exampleTable [.str "&", tripInt "a" "=" 1, tripInt "b" "=" 2] ≤
      countMarkers [.str "&", tripInt "a" "=" 1, tripInt "b" "=" 2] :=
  ⟨((c8_amended_termination_and_conditional_depth_bound exampleTable
      [.str "&", tripInt "a" "=" 1, tripInt "b" "=" 2] 4
      (.and (.eq "a" (.int 1)) (.eq "b" (.int 2)))).1
      (tripInt "a" "=" 1) (tripInt "b" "=" 2) (tripInt "c" "=" 3) []).1,
   (c8_amended_termination_and_conditional_depth_bound exampleTable
      [.str "&", tripInt "a" "=" 1, tripInt "b" "=" 2] 4
      (.and (.eq "a" (.int 1)) (.eq "b" (.int 2)))).2.1 (by decide),
   (c8_amended_termination_and_conditional_depth_bound exampleTable
      [.str "&", tripInt "a" "=" 1, tripInt "b" "=" 2] 4
      (.and (.eq "a" (.int 1)) (.eq "b" (.int 2)))).2.2
      (build_where_eval _ _ _ rfl)⟩

/-- C9: for every triplet whose operator is in the closed operator set and
whose field name is not a column of the target table, atomic predicate
construction fails with `AttributeError` (the spec's `UnknownField`): the
`getattr` inside the operator's lambda raises before any comparison predicate
is built, so the result carries no predicate. -/
theorem c9_unknown_field_fails_before_predicate :
    ∀ (table : List String) (f : String) (v : Value) (op : String),
      op ∈ ["=", "!=", ">", ">=", "<", "<=", "><", "in", "not in",
            "ilike", "not ilike", "~", "~*"] →
      table.contains f = false →
      _create_individual_query table (.tup [.str f, .str op, v]) =
        .error .attributeError := by
  intro table f v op hop hf
  have hgf := get_table_field_absent table f hf
  fin_cases hop <;>
    simp [_create_individual_query, unpack3, _comparison_operation, hgf, Except.map]

/-- Witness for C9 at `('missing_field','=',1)` against a one-column table. -/
theorem c9_witness :
    _create_individual_query ["a"] (.tup [.str "missing_field", .str "=", .int 1]) =
      .error .attributeError :=
  c9_unknown_field_fails_before_predicate ["a"] "missing_field" (.int 1) "="
    (by decide) rfl
